import Mathlib

/-!
Verification of the sansio-jsonrpc core (`sansio_jsonrpc/main.py`,
`sansio_jsonrpc/exc.py`) against its natural-language specification.

The Python code is shallowly embedded: Python JSON values become the
inductive `JVal` (floats are modelled exactly as rationals, which is
faithful for the only float operations the code performs: `is_integer`
and equality), Python dicts become association lists in insertion order,
raising an exception becomes returning `Except PyExc`, and the mutable
peer id counter becomes explicit state passing.  Python object identity
of the `MissingId` sentinel (which defines no `__eq__`, so two distinct
instances never compare equal) is modelled by a numeric allocation tag.
-/

namespace SansioJsonRpc

/-- A Python JSON value: the result of `json.loads`, or a value passed to
the message constructors.  Floats are modelled exactly as rationals;
booleans and integers are distinct constructors, mirroring the distinct
Python types `bool` and `int` that `type(...)`-based checks in the source
distinguish. -/
inductive JVal where
  | null
  | bool (b : Bool)
  | int (n : Int)
  | float (q : ℚ)
  | str (s : String)
  | list (xs : List JVal)
  | dict (kvs : List (String × JVal))

/-- Python `type(v).__name__`, used in `TypeError` messages. -/
def JVal.pyTypeName : JVal → String
  | .null => "NoneType"
  | .bool _ => "bool"
  | .int _ => "int"
  | .float _ => "float"
  | .str _ => "str"
  | .list _ => "list"
  | .dict _ => "dict"

def JVal.isNull : JVal → Bool
  | .null => true
  | _ => false

def JVal.isStr : JVal → Bool
  | .str _ => true
  | _ => false

def JVal.isDictOrList : JVal → Bool
  | .dict _ => true
  | .list _ => true
  | _ => false

/-- Lookup in a Python dict modelled as an association list (keys are
unique by construction: the JSON decoder and all dict builders insert
with replacement). -/
def lookupD (kvs : List (String × JVal)) (k : String) : Option JVal :=
  match kvs with
  | [] => none
  | (k2, v) :: rest => if k2 = k then some v else lookupD rest k

/-- Python dict assignment `d[k] = v`: replaces in place if the key
exists, otherwise appends (insertion order preserved). -/
def insertD (kvs : List (String × JVal)) (k : String) (v : JVal) :
    List (String × JVal) :=
  match kvs with
  | [] => [(k, v)]
  | (k2, v2) :: rest =>
    if k2 = k then (k2, v) :: rest else (k2, v2) :: insertD rest k v

/-- Python `k in d` for a dict. -/
def containsKeyD (kvs : List (String × JVal)) (k : String) : Bool :=
  match kvs with
  | [] => false
  | (k2, _) :: rest => k2 = k || containsKeyD rest k

/-- Identity of an exception class in the embedded hierarchy. -/
inductive ExcKind where
  | parseError
  | invalidRequestError
  | methodNotFoundError
  | invalidParamsError
  | internalError
  | reservedError
  | applicationError
  | custom (name : String)
deriving DecidableEq

/-- The `JsonRpcError` dataclass from `exc.py`: the wire-level error
record.  Field types follow the dataclass annotations (`code: int`,
`message: str`, `data: Optional[JsonDict]`). -/
structure JsonRpcError where
  code : Int
  message : String
  data : Option JVal

/-- A raised Python exception: either a `JsonRpcException` subclass
instance (class identity plus its `JsonRpcError` payload) or one of the
builtin exception types the code can raise or propagate. -/
inductive PyExc where
  | jsonRpc (kind : ExcKind) (error : JsonRpcError)
  | runtimeError (msg : String)
  | typeError (msg : String)
  | keyError (key : String)
  | attributeError (msg : String)

/-- Python `message or DEFAULT` on an optional string argument: `None`
and the empty string are both falsy and select the default. -/
def msgOr (message : Option String) (dflt : String) : String :=
  match message with
  | none => dflt
  | some m => if m = "" then dflt else m

/-- A reserved-domain error class: its registry identity, its
`ERROR_CODE` and its `ERROR_MESSAGE` class attributes.  (Every class in
the source and in the claims sets an integer `ERROR_CODE`, so the
`ERROR_CODE is not None` guard in the metaclass is modelled as always
true.) -/
structure RClass where
  kind : ExcKind
  errorCode : Int
  errorMessage : String
deriving DecidableEq

/-- The base class `JsonRpcReservedError` (`ERROR_CODE = -32000`). -/
def reservedBaseCls : RClass :=
  ⟨.reservedError, -32000, "JSON-RPC reserved error"⟩

/-- The base class `JsonRpcApplicationError` (`ERROR_CODE = -1`). -/
def applicationBaseCls : RClass :=
  ⟨.applicationError, -1, "JSON-RPC"⟩

def parseErrorCls : RClass :=
  ⟨.parseError, -32700, "Invalid JSON was received by the server."⟩

def invalidRequestErrorCls : RClass :=
  ⟨.invalidRequestError, -32600, "The JSON sent is not a valid Request object."⟩

def methodNotFoundErrorCls : RClass :=
  ⟨.methodNotFoundError, -32601, "The method does not exist / is not available."⟩

def invalidParamsErrorCls : RClass :=
  ⟨.invalidParamsError, -32602, "Invalid method parameter(s)."⟩

/-- Note the source sets `ERROR_CODE = -32602` for `JsonRpcInternalError`
(same code as invalid-params), not -32603. -/
def internalErrorCls : RClass :=
  ⟨.internalError, -32602, "Internal JSON-RPC error."⟩

/-- Instantiating a reserved-error class:
`JsonRpcReservedError.__init__(message, data)` builds
`JsonRpcError(self.ERROR_CODE, message or self.ERROR_MESSAGE, data)`. -/
def mkReservedExc (cls : RClass) (message : Option String)
    (data : Option JVal) : PyExc :=
  .jsonRpc cls.kind ⟨cls.errorCode, msgOr message cls.errorMessage, data⟩

/-- Instantiating an application-error class:
`JsonRpcApplicationError.__init__(message, *, data, code)` builds
`JsonRpcError(code or self.ERROR_CODE, message or self.ERROR_MESSAGE,
data)`; a code argument of `None` or `0` is falsy and selects the class
default. -/
def mkApplicationExc (cls : RClass) (message : Option String)
    (data : Option JVal) (code : Option Int) : PyExc :=
  .jsonRpc cls.kind
    ⟨(match code with
      | none => cls.errorCode
      | some c => if c = 0 then cls.errorCode else c),
     msgOr message cls.errorMessage, data⟩

/-- Shorthand for raising a reserved exception class with a message and
no data, as the validation code in `main.py` does. -/
def raiseExc (cls : RClass) (message : String) : PyExc :=
  mkReservedExc cls (some message) none

/-- An error-class registry (`_error_classes`): code to class, with
dict-assignment (last-registered-wins) update semantics. -/
def Registry := List (Int × RClass)

def lookupReg (reg : Registry) (code : Int) : Option RClass :=
  match reg with
  | [] => none
  | (c, cls) :: rest => if c = code then some cls else lookupReg rest code

def insertReg (reg : Registry) (code : Int) (cls : RClass) : Registry :=
  match reg with
  | [] => [(code, cls)]
  | (c, v) :: rest =>
    if c = code then (c, cls) :: rest else (c, v) :: insertReg rest code cls

/-- The declaration-time body of `JsonRpcReservedErrorMeta.__init__`:
raise `RuntimeError` if the declared `ERROR_CODE` lies outside
[-32768, -32000], otherwise record the class in the reserved registry. -/
def declareReserved (cls : RClass) (reg : Registry) :
    Except PyExc Registry :=
  if cls.errorCode < -32768 ∨ cls.errorCode > -32000 then
    .error (.runtimeError
      "Subclasses of JsonRpcReservedError must set ERROR_CODE in range [-32768, -32000].")
  else
    .ok (insertReg reg cls.errorCode cls)

/-- The declaration-time body of `JsonRpcApplicationErrorMeta.__init__`:
raise `RuntimeError` if the declared `ERROR_CODE` lies inside
[-32768, -32000], otherwise record the class in the application
registry.  (The message in the source names `JsonRpcReservedError`; it is
reproduced verbatim.) -/
def declareApplication (cls : RClass) (reg : Registry) :
    Except PyExc Registry :=
  if cls.errorCode ≥ -32768 ∧ cls.errorCode ≤ -32000 then
    .error (.runtimeError
      "Subclasses of JsonRpcReservedError must set ERROR_CODE outside the  range [-32768, -32000].")
  else
    .ok (insertReg reg cls.errorCode cls)

/-- Declare a list of classes in order against a registry, propagating a
declaration failure. -/
def declareAllReserved (clss : List RClass) (reg : Registry) :
    Except PyExc Registry :=
  match clss with
  | [] => .ok reg
  | c :: rest => do declareAllReserved rest (← declareReserved c reg)

/-- The reserved classes declared by importing `exc.py`, in source
order. -/
def builtinReservedClasses : List RClass :=
  [reservedBaseCls, parseErrorCls, invalidRequestErrorCls,
   methodNotFoundErrorCls, invalidParamsErrorCls, internalErrorCls]

/-- The reserved registry after importing `exc.py`.  Note -32602 maps to
`JsonRpcInternalError` because it was declared after
`JsonRpcInvalidParamsError` with the same code (last wins). -/
def defaultReservedRegistry : Registry :=
  [(-32000, reservedBaseCls), (-32700, parseErrorCls),
   (-32600, invalidRequestErrorCls), (-32601, methodNotFoundErrorCls),
   (-32602, internalErrorCls)]

/-- The application registry after importing `exc.py`: only the base
class, registered under its default code -1. -/
def defaultApplicationRegistry : Registry := [(-1, applicationBaseCls)]

/-- `JsonRpcReservedError.exc_from_error`: look the code up in the
reserved registry, falling back to the base class, and instantiate with
the received message and data. -/
def reservedExcFromError (reg : Registry) (error : JsonRpcError) : PyExc :=
  let cls := (lookupReg reg error.code).getD reservedBaseCls
  mkReservedExc cls (some error.message) error.data

/-- `JsonRpcApplicationError.exc_from_error`: look the code up in the
application registry, falling back to the base class, and instantiate
with the received message and data.  The `code` keyword of
`JsonRpcApplicationError.__init__` is not passed, so the instantiated
exception always carries the class `ERROR_CODE`. -/
def applicationExcFromError (reg : Registry) (error : JsonRpcError) :
    PyExc :=
  let cls := (lookupReg reg error.code).getD applicationBaseCls
  mkApplicationExc cls (some error.message) error.data none

/-- `JsonRpcException.exc_from_error`: dispatch on the code range. -/
def excFromError (reservedReg applicationReg : Registry)
    (error : JsonRpcError) : PyExc :=
  if -32768 ≤ error.code ∧ error.code ≤ -32000 then
    reservedExcFromError reservedReg error
  else
    applicationExcFromError applicationReg error

/-- Python `float.is_integer()` on an exactly-represented rational. -/
def floatIsInteger (q : ℚ) : Bool := q.den = 1

/-- `validate_json_rpc_id(id_, exc)` from `main.py`.  The first branch
fires only for values of exact type `float`; the second accepts exact
types `int`, `float`, `str` and rejects everything else — including
`bool` (a distinct constructor here, as `type(True) is int` is false in
Python) and `None`. -/
def validate_json_rpc_id (id_ : JVal) (exc : RClass) :
    Except PyExc Unit :=
  if (match id_ with
      | .float q => ! floatIsInteger q
      | _ => false) then
    .error (raiseExc exc "`id` number cannot have a fractional part.")
  else if (match id_ with
      | .int _ => false
      | .float _ => false
      | .str _ => false
      | _ => true) then
    .error (raiseExc exc "`id` must be a number, string, or null.")
  else
    .ok ()

/-- The `id` field of a request: either a `MissingId` sentinel instance
(identified by an allocation tag, because `MissingId` defines no
`__eq__` and distinct instances are unequal in Python) or a present
value. -/
inductive ReqId where
  | missing (tag : Nat)
  | val (v : JVal)

def ReqId.isMissing : ReqId → Bool
  | .missing _ => true
  | .val _ => false

/-- Python `==` on two request-id field values.  Two `MissingId`
sentinels compare by identity (tag); a present id compares by value
(ids that pass validation are ints, integral floats or strings, and
numeric values compare cross-type as in Python). -/
def reqIdEq : ReqId → ReqId → Bool
  | .missing t1, .missing t2 => t1 = t2
  | .val (.int a), .val (.int b) => a = b
  | .val (.int a), .val (.float b) => (a : ℚ) = b
  | .val (.float a), .val (.int b) => a = (b : ℚ)
  | .val (.float a), .val (.float b) => a = b
  | .val (.str a), .val (.str b) => a = b
  | _, _ => false

/-- The `JsonRpcRequest` dataclass.  Fields hold the values passed to
the constructor (validation raises but does not normalize). -/
structure JsonRpcRequest where
  id : ReqId
  method : JVal
  params : Option JVal
  jsonrpc : JVal

/-- Python `self.jsonrpc != "2.0"` is false exactly when the field is a
string equal to `"2.0"` (a non-string never equals a string). -/
def jsonrpcIs20 : JVal → Bool
  | .str s => s = "2.0"
  | _ => false

/-- `JsonRpcRequest.__post_init__` together with field assignment:
validates the id (unless the request is a notification), the method,
the params and the protocol version, in source order, and otherwise
returns the constructed request.  The params message reproduces the
source text (`must a`). -/
def paramsOk (params : Option JVal) : Bool :=
  match params with
  | none => true
  | some p => p.isDictOrList

def JsonRpcRequest.mk' (id : ReqId) (method : JVal) (params : Option JVal)
    (jsonrpc : JVal) : Except PyExc JsonRpcRequest :=
  match (match id with
         | .missing _ => Except.ok ()
         | .val v => validate_json_rpc_id v invalidRequestErrorCls) with
  | .error e => .error e
  | .ok _ =>
    if ! method.isStr then
      .error (raiseExc invalidRequestErrorCls "`method` must be a string.")
    else if ! paramsOk params then
      .error (raiseExc invalidRequestErrorCls "`params` must a list or object.")
    else if ! jsonrpcIs20 jsonrpc then
      .error (raiseExc invalidRequestErrorCls "`jsonrpc` must be \"2.0\".")
    else .ok ⟨id, method, params, jsonrpc⟩

/-- `JsonRpcRequest.to_json_dict`: emits `method` and `jsonrpc` always,
then `id` only when present, then `params` only when not `None`, in
insertion order. -/
def JsonRpcRequest.to_json_dict (req : JsonRpcRequest) :
    List (String × JVal) :=
  [("method", req.method), ("jsonrpc", req.jsonrpc)] ++
  (match req.id with
   | .missing _ => []
   | .val v => [("id", v)]) ++
  (match req.params with
   | none => []
   | some p => [("params", p)])

/-- `JsonRpcRequest.from_json_dict`: a missing `id` key allocates a
fresh `MissingId()` sentinel, modelled by the caller-supplied fresh tag;
missing `method` or `jsonrpc` keys raise `KeyError` (in that order, the
argument evaluation order of the constructor call). -/
def JsonRpcRequest.from_json_dict (d : List (String × JVal))
    (freshTag : Nat) : Except PyExc JsonRpcRequest :=
  let id : ReqId :=
    match lookupD d "id" with
    | some v => .val v
    | none => .missing freshTag
  let params := lookupD d "params"
  match lookupD d "method" with
  | none => .error (.keyError "method")
  | some m =>
    match lookupD d "jsonrpc" with
    | none => .error (.keyError "jsonrpc")
    | some j => JsonRpcRequest.mk' id m params j

/-- `JsonRpcError.to_json_dict`: `code` and `message` always, `data`
only when not `None`. -/
def JsonRpcError.to_json_dict (e : JsonRpcError) : List (String × JVal) :=
  [("code", .int e.code), ("message", .str e.message)] ++
  (match e.data with
   | none => []
   | some d => [("data", d)])

/-- `JsonRpcError.from_json_dict`: reads `code` and `message` (raising
`KeyError` when absent) and `data` via `.get`.  The source applies
`typing.cast` (a runtime no-op) to the read values; the model requires
the dataclass annotation types `int` and `str`, which every wire object
produced by this library satisfies, and signals other shapes with a
`TypeError`. -/
def JsonRpcError.from_json_dict (d : List (String × JVal)) :
    Except PyExc JsonRpcError :=
  match lookupD d "code" with
  | none => .error (.keyError "code")
  | some c =>
    match lookupD d "message" with
    | none => .error (.keyError "message")
    | some m =>
      match c, m with
      | .int code, .str message => .ok ⟨code, message, lookupD d "data"⟩
      | _, _ => .error (.typeError "error object fields do not match the JsonRpcError annotations")

/-- The `JsonRpcResponse` dataclass.  The Python `result` field conflates
the JSON value `null` with absence (both are `None`); the model
therefore stores a single `JVal` in which `JVal.null` is that conflated
`None`.  The `error` field is `None` or a `JsonRpcError`. -/
structure JsonRpcResponse where
  id : JVal
  result : JVal
  error : Option JsonRpcError
  jsonrpc : JVal

/-- `JsonRpcResponse.__post_init__`: validates the id when it is not
`None`, then requires exactly one of `result`/`error` to be present
(`(self.result is None) == (self.error is None)` raises).  The remaining
two source checks — `result` truthy but not a JSON type, and `error`
truthy but not a `JsonRpcError` — are unreachable in the model, where
every `JVal` is a JSON type and `error` is typed. -/
def JsonRpcResponse.mk' (id : JVal) (result : JVal)
    (error : Option JsonRpcError) (jsonrpc : JVal) :
    Except PyExc JsonRpcResponse :=
  match (if id.isNull then Except.ok ()
         else validate_json_rpc_id id internalErrorCls) with
  | .error e => .error e
  | .ok _ =>
    if result.isNull = error.isNone then
      .error (raiseExc internalErrorCls
        "Response must contain one of `result` or `error`.")
    else .ok ⟨id, result, error, jsonrpc⟩

/-- `JsonRpcResponse.success`: true when `error` is `None`. -/
def JsonRpcResponse.success (r : JsonRpcResponse) : Bool := r.error.isNone

/-- `JsonRpcResponse.to_json_dict`: `id` and `jsonrpc` always, then
`result` on success and the serialized `error` otherwise. -/
def JsonRpcResponse.to_json_dict (r : JsonRpcResponse) :
    List (String × JVal) :=
  [("id", r.id), ("jsonrpc", r.jsonrpc)] ++
  (match r.error with
   | none => [("result", r.result)]
   | some e => [("error", .dict e.to_json_dict)])

/-- `JsonRpcResponse.from_json_dict`: decodes `error` when the key is
present (the sub-object must be a dict), reads `result` when present
(else `None`, i.e. `JVal.null`), then reads `id` and `jsonrpc`
(`KeyError` when absent) and runs the constructor. -/
def JsonRpcResponse.from_json_dict (d : List (String × JVal)) :
    Except PyExc JsonRpcResponse :=
  match (match lookupD d "error" with
         | none => Except.ok none
         | some (.dict ed) => (JsonRpcError.from_json_dict ed).map some
         | some _ => .error (.typeError
             "error object fields do not match the JsonRpcError annotations")) with
  | .error e => .error e
  | .ok error =>
    let result := (lookupD d "result").getD .null
    match lookupD d "id" with
    | none => .error (.keyError "id")
    | some id =>
      match lookupD d "jsonrpc" with
      | none => .error (.keyError "jsonrpc")
      | some j => JsonRpcResponse.mk' id result error j

/-! Byte-level collaborators: `bytes.decode("utf8")`, `str.encode("utf8")`
and the `json` module, modelled faithfully on the inputs the claims
exercise (the decoder implements the standard UTF-8 validity rules,
including continuation, overlong and surrogate checks). -/

def isContByte (b : Nat) : Bool := 0x80 ≤ b && b ≤ 0xBF

/-- Decode a UTF-8 byte list, `none` on any invalid sequence (as
`bytes.decode("utf8")` raises `UnicodeDecodeError`). -/
def utf8DecodeChars : List Nat → Option (List Char)
  | [] => some []
  | b :: rest =>
    if b < 0x80 then
      (utf8DecodeChars rest).map (fun cs => Char.ofNat b :: cs)
    else if 0xC2 ≤ b && b ≤ 0xDF then
      match rest with
      | b1 :: rest1 =>
        if isContByte b1 then
          (utf8DecodeChars rest1).map
            (fun cs => Char.ofNat ((b - 0xC0) * 0x40 + (b1 - 0x80)) :: cs)
        else none
      | [] => none
    else if 0xE0 ≤ b && b ≤ 0xEF then
      match rest with
      | b1 :: b2 :: rest2 =>
        if isContByte b1 && isContByte b2 &&
            (b ≠ 0xE0 || b1 ≥ 0xA0) && (b ≠ 0xED || b1 ≤ 0x9F) then
          (utf8DecodeChars rest2).map
            (fun cs => Char.ofNat
              ((b - 0xE0) * 0x1000 + (b1 - 0x80) * 0x40 + (b2 - 0x80)) :: cs)
        else none
      | _ => none
    else if 0xF0 ≤ b && b ≤ 0xF4 then
      match rest with
      | b1 :: b2 :: b3 :: rest3 =>
        if isContByte b1 && isContByte b2 && isContByte b3 &&
            (b ≠ 0xF0 || b1 ≥ 0x90) && (b ≠ 0xF4 || b1 ≤ 0x8F) then
          (utf8DecodeChars rest3).map
            (fun cs => Char.ofNat
              ((b - 0xF0) * 0x40000 + (b1 - 0x80) * 0x1000 +
               (b2 - 0x80) * 0x40 + (b3 - 0x80)) :: cs)
        else none
      | _ => none
    else none

def utf8Decode (bs : List Nat) : Option String :=
  (utf8DecodeChars bs).map String.mk

/-- Encode one scalar value as UTF-8 bytes. -/
def utf8EncodeChar (c : Char) : List Nat :=
  let n := c.toNat
  if n < 0x80 then [n]
  else if n < 0x800 then [0xC0 + n / 0x40, 0x80 + n % 0x40]
  else if n < 0x10000 then
    [0xE0 + n / 0x1000, 0x80 + (n / 0x40) % 0x40, 0x80 + n % 0x40]
  else
    [0xF0 + n / 0x40000, 0x80 + (n / 0x1000) % 0x40,
     0x80 + (n / 0x40) % 0x40, 0x80 + n % 0x40]

def utf8Encode (s : String) : List Nat :=
  (s.data.map utf8EncodeChar).flatten

/-! A JSON decoder standing in for `json.loads` (strict RFC 8259 value
grammar, which agrees with the Python decoder on every input the claims
exercise; the non-standard `NaN`/`Infinity` extensions are omitted).
Recursion is on an explicit fuel counter that the top-level entry point
sizes generously from the input length. -/

def lbraceC : Char := Char.ofNat 123
def rbraceC : Char := Char.ofNat 125

def jsonWsChar (c : Char) : Bool :=
  c = ' ' || c = '\t' || c = '\n' || c = '\r'

def dropWs : List Char → List Char
  | [] => []
  | c :: cs => if jsonWsChar c then dropWs cs else c :: cs

def isDigitC (c : Char) : Bool := '0' ≤ c && c ≤ '9'

def spanDigits : List Char → List Char × List Char
  | [] => ([], [])
  | c :: cs =>
    if isDigitC c then
      let (d, r) := spanDigits cs
      (c :: d, r)
    else ([], c :: cs)

def digitsVal (ds : List Char) : Nat :=
  ds.foldl (fun a c => a * 10 + (c.toNat - 48)) 0

def hexDigitVal (c : Char) : Option Nat :=
  if isDigitC c then some (c.toNat - 48)
  else if 'a' ≤ c && c ≤ 'f' then some (c.toNat - 87)
  else if 'A' ≤ c && c ≤ 'F' then some (c.toNat - 55)
  else none

/-- Parse the tail of a JSON number (everything after an optional minus
sign already stripped by the caller): integer part without leading
zeros, optional fraction, optional exponent.  Yields an `int` when
neither fraction nor exponent is present, a `float` otherwise, exactly
as the Python decoder chooses `int` versus `float`. -/
def jsonNumberTail (neg : Bool) (cs : List Char) : Option (JVal × List Char) :=
  match cs with
  | [] => none
  | d :: _ =>
    if ! isDigitC d then none
    else
      let (ds, cs2) := spanDigits cs
      if ds.length > 1 && ds.headD '0' = '0' then none
      else
        let fracStep : Option (List Char × List Char) :=
          match cs2 with
          | '.' :: r =>
            let (f, r2) := spanDigits r
            if f.isEmpty then none else some (f, r2)
          | _ => some ([], cs2)
        match fracStep with
        | none => none
        | some (frac, cs3) =>
          let expStep : Option (Bool × List Char × List Char) :=
            match cs3 with
            | e :: r =>
              if e = 'e' || e = 'E' then
                let (esign, r1) :=
                  match r with
                  | '-' :: rr => (true, rr)
                  | '+' :: rr => (false, rr)
                  | _ => (false, r)
                let (eds, r2) := spanDigits r1
                if eds.isEmpty then none else some (true, eds, r2) |>.map
                  (fun (_, eds, r2) => (esign, eds, r2))
              else some (false, [], cs3)
            | [] => some (false, [], cs3)
          match expStep with
          | none => none
          | some (esign, eds, cs4) =>
            if frac.isEmpty && eds.isEmpty then
              let n : Int := (digitsVal ds : Int)
              some (.int (if neg then -n else n), cs4)
            else
              let mantissa : ℚ :=
                (digitsVal (ds ++ frac) : ℚ) / ((10 : ℚ) ^ frac.length)
              let expo : Int :=
                if esign then -(digitsVal eds : Int) else (digitsVal eds : Int)
              let q := mantissa * (10 : ℚ) ^ expo
              some (.float (if neg then -q else q), cs4)

/-- Scan a JSON string body (after the opening quote), resolving the
standard escapes; `\u` escapes outside the surrogate range become the
named scalar.  `none` on malformed input, as the Python decoder
raises. -/
def jsonStringBody : (fuel : Nat) → List Char → Option (List Char × List Char)
  | 0, _ => none
  | fuel + 1, cs =>
    match cs with
    | [] => none
    | c :: rest =>
      if c = '"' then some ([], rest)
      else if c = '\\' then
        match rest with
        | 'u' :: h1 :: h2 :: h3 :: h4 :: rest2 =>
          match hexDigitVal h1, hexDigitVal h2, hexDigitVal h3, hexDigitVal h4 with
          | some a, some b, some c2, some d =>
            let n := ((a * 16 + b) * 16 + c2) * 16 + d
            if 0xD800 ≤ n && n ≤ 0xDFFF then none
            else (jsonStringBody fuel rest2).map
              (fun (s, r) => (Char.ofNat n :: s, r))
          | _, _, _, _ => none
        | e :: rest2 =>
          let ch? : Option Char :=
            if e = '"' then some '"'
            else if e = '\\' then some '\\'
            else if e = '/' then some '/'
            else if e = 'b' then some (Char.ofNat 8)
            else if e = 'f' then some (Char.ofNat 12)
            else if e = 'n' then some '\n'
            else if e = 'r' then some '\r'
            else if e = 't' then some '\t'
            else none
          match ch? with
          | some ch => (jsonStringBody fuel rest2).map
              (fun (s, r) => (ch :: s, r))
          | none => none
        | [] => none
      else if c.toNat < 0x20 then none
      else (jsonStringBody fuel rest).map (fun (s, r) => (c :: s, r))

mutual

def jsonValue : (fuel : Nat) → List Char → Option (JVal × List Char)
  | 0, _ => none
  | fuel + 1, cs =>
    match dropWs cs with
    | [] => none
    | c :: rest =>
      if c = lbraceC then
        match dropWs rest with
        | c2 :: rest2 =>
          if c2 = rbraceC then some (.dict [], rest2)
          else jsonMembers fuel (c2 :: rest2) []
        | [] => none
      else if c = '[' then
        match dropWs rest with
        | c2 :: rest2 =>
          if c2 = ']' then some (.list [], rest2)
          else jsonItems fuel (c2 :: rest2) []
        | [] => none
      else if c = '"' then
        (jsonStringBody fuel rest).map
          (fun (s, r) => (.str (String.mk s), r))
      else if c = 't' then
        match rest with
        | 'r' :: 'u' :: 'e' :: r => some (.bool true, r)
        | _ => none
      else if c = 'f' then
        match rest with
        | 'a' :: 'l' :: 's' :: 'e' :: r => some (.bool false, r)
        | _ => none
      else if c = 'n' then
        match rest with
        | 'u' :: 'l' :: 'l' :: r => some (.null, r)
        | _ => none
      else if c = '-' then jsonNumberTail true rest
      else jsonNumberTail false (c :: rest)

def jsonMembers : (fuel : Nat) → List Char →
    List (String × JVal) → Option (JVal × List Char)
  | 0, _, _ => none
  | fuel + 1, cs, acc =>
    match dropWs cs with
    | '"' :: rest =>
      match jsonStringBody fuel rest with
      | none => none
      | some (keyChars, r1) =>
        match dropWs r1 with
        | ':' :: r2 =>
          match jsonValue fuel r2 with
          | none => none
          | some (v, r3) =>
            let acc2 := insertD acc (String.mk keyChars) v
            match dropWs r3 with
            | ',' :: r4 => jsonMembers fuel r4 acc2
            | c :: r4 =>
              if c = rbraceC then some (.dict acc2, r4) else none
            | [] => none
        | _ => none
    | _ => none

def jsonItems : (fuel : Nat) → List Char → List JVal →
    Option (JVal × List Char)
  | 0, _, _ => none
  | fuel + 1, cs, acc =>
    match jsonValue fuel cs with
    | none => none
    | some (v, r1) =>
      let acc2 := acc ++ [v]
      match dropWs r1 with
      | ',' :: r2 => jsonItems fuel r2 acc2
      | c :: r2 => if c = ']' then some (.list acc2, r2) else none
      | [] => none

end

/-- The stand-in for `json.loads`: parse one value, then require only
whitespace to remain. -/
def jsonLoads (s : String) : Option JVal :=
  match jsonValue (4 * s.length + 16) s.data with
  | some (v, rest) => if dropWs rest = [] then some v else none
  | none => none

/-! A JSON renderer standing in for `json.dumps` with the library
defaults (separators `", "` and `": "`, `ensure_ascii`). -/

def hex4 (n : Nat) : List Char :=
  let hd := fun (k : Nat) =>
    if k < 10 then Char.ofNat (48 + k) else Char.ofNat (87 + k)
  [hd (n / 0x1000 % 16), hd (n / 0x100 % 16), hd (n / 0x10 % 16), hd (n % 16)]

/-- Escape a string body as `json.dumps` does with `ensure_ascii`:
two-character escapes for the common controls, `\uXXXX` for the rest of
the control range and all non-ASCII scalars (surrogate pairs above the
BMP). -/
def jsonEscapeChars : List Char → List Char
  | [] => []
  | c :: cs =>
    let n := c.toNat
    let tail := jsonEscapeChars cs
    if c = '"' then '\\' :: '"' :: tail
    else if c = '\\' then '\\' :: '\\' :: tail
    else if c = '\n' then '\\' :: 'n' :: tail
    else if c = '\r' then '\\' :: 'r' :: tail
    else if c = '\t' then '\\' :: 't' :: tail
    else if n = 8 then '\\' :: 'b' :: tail
    else if n = 12 then '\\' :: 'f' :: tail
    else if n < 0x20 || (0x7F ≤ n && n < 0x10000) then
      '\\' :: 'u' :: hex4 n ++ tail
    else if 0x10000 ≤ n then
      let m := n - 0x10000
      '\\' :: 'u' :: hex4 (0xD800 + m / 0x400) ++
        ('\\' :: 'u' :: hex4 (0xDC00 + m % 0x400)) ++ tail
    else c :: tail

def dumpStr (s : String) : String :=
  "\"" ++ String.mk (jsonEscapeChars s.data) ++ "\""

/-- Best-effort float rendering.  No claim serializes a float, so this
placeholder never influences a theorem; Python float `repr` is not
modelled. -/
def floatRepr (q : ℚ) : String :=
  if q.den = 1 then toString q.num ++ ".0"
  else toString q.num ++ "e/" ++ toString q.den

mutual

def dumps : JVal → String
  | .null => "null"
  | .bool true => "true"
  | .bool false => "false"
  | .int n => toString n
  | .float q => floatRepr q
  | .str s => dumpStr s
  | .list xs => "[" ++ dumpsItems xs ++ "]"
  | .dict kvs => "\x7b" ++ dumpsMembers kvs ++ "\x7d"

def dumpsItems : List JVal → String
  | [] => ""
  | [x] => dumps x
  | x :: y :: xs => dumps x ++ ", " ++ dumpsItems (y :: xs)

def dumpsMembers : List (String × JVal) → String
  | [] => ""
  | [(k, v)] => dumpStr k ++ ": " ++ dumps v
  | (k, v) :: m :: kvs =>
    dumpStr k ++ ": " ++ dumps v ++ ", " ++ dumpsMembers (m :: kvs)

end

/-! The `JsonRpcPeer` abstraction.  Its only state is the id counter
(`itertools.count()`), modelled as the next value to yield.  Methods
that can raise return `Except` together with the post-call state, since
the counter advance in `request` survives a construction failure. -/

structure JsonRpcPeer where
  idGen : Nat

def JsonRpcPeer.new : JsonRpcPeer := ⟨0⟩

/-- `JsonRpcPeer.request`: draw the next id (the counter advances even
if the subsequent validation raises), build a validated request, and
serialize it. -/
def JsonRpcPeer.request (st : JsonRpcPeer) (method : String)
    (params : Option JVal) :
    Except PyExc (Nat × List Nat) × JsonRpcPeer :=
  let requestId := st.idGen
  let st2 : JsonRpcPeer := ⟨st.idGen + 1⟩
  match JsonRpcRequest.mk' (.val (.int requestId)) (.str method) params
      (.str "2.0") with
  | .error e => (.error e, st2)
  | .ok req => (.ok (requestId, utf8Encode (dumps (.dict req.to_json_dict))), st2)

/-- `JsonRpcPeer.notify`: build a request with a fresh `MissingId`
sentinel (the supplied tag) and serialize it.  The id counter is not
consulted; the state passes through untouched. -/
def JsonRpcPeer.notify (st : JsonRpcPeer) (method : String)
    (params : Option JVal) (freshTag : Nat) :
    Except PyExc (List Nat) × JsonRpcPeer :=
  match JsonRpcRequest.mk' (.missing freshTag) (.str method) params
      (.str "2.0") with
  | .error e => (.error e, st)
  | .ok req => (.ok (utf8Encode (dumps (.dict req.to_json_dict))), st)

/-- Python `key in container` on a decoded JSON value: key membership
for dicts, element equality for lists (a string key equals only equal
strings), substring search for strings, and a `TypeError` for the
non-container types `int`, `float`, `bool` and `NoneType`. -/
def strContains (hay needle : List Char) : Bool :=
  (List.range (hay.length + 1)).any fun i => needle.isPrefixOf (hay.drop i)

def pyContains (container : JVal) (key : String) : Except PyExc Bool :=
  match container with
  | .dict kvs => .ok (containsKeyD kvs key)
  | .list xs => .ok (xs.any fun v =>
      match v with
      | .str s => s = key
      | _ => false)
  | .str s => .ok (strContains s.data key.data)
  | other => .error (.typeError
      ("argument of type \x27" ++ other.pyTypeName ++ "\x27 is not iterable"))

inductive ParsedMsg where
  | request (r : JsonRpcRequest)
  | response (r : JsonRpcResponse)

/-- The `recv_str[:100] + ("..." if len(recv_str) > 100 else "")`
truncation from the classification failure branch. -/
def truncateForMsg (s : String) : String :=
  s.take 100 ++ (if s.length > 100 then "..." else "")

/-- `JsonRpcPeer.parse` (which reads no peer state): decode the bytes
(failure raises ParseError with message `"Invalid ASCII encoding"`),
parse as JSON (failure raises ParseError with message
`"Invalid JSON format"`), then classify by key membership — a step that
itself raises `TypeError` on non-container JSON values.  The final
branch reproduces the source message verbatim, including its missing
"not".  Classification of a non-dict container routes the value shape
mismatch to the builtin-exception path the source would hit inside
`from_json_dict`. -/
def JsonRpcPeer.parse (recvBytes : List Nat) (freshTag : Nat) :
    Except PyExc (List ParsedMsg) :=
  match utf8Decode recvBytes with
  | none => .error (raiseExc parseErrorCls "Invalid ASCII encoding")
  | some recvStr =>
    match jsonLoads recvStr with
    | none => .error (raiseExc parseErrorCls "Invalid JSON format")
    | some recvDict =>
      let respond : Except PyExc (List ParsedMsg) :=
        match recvDict with
        | .dict d => (JsonRpcResponse.from_json_dict d).map
            (fun r => [.response r])
        | _ => .error (.typeError "indices must be integers")
      match pyContains recvDict "method" with
      | .error e => .error e
      | .ok true =>
        match recvDict with
        | .dict d => (JsonRpcRequest.from_json_dict d freshTag).map
            (fun r => [.request r])
        | _ => .error (.attributeError "object has no attribute get")
      | .ok false =>
        match pyContains recvDict "result" with
        | .error e => .error e
        | .ok true => respond
        | .ok false =>
          match pyContains recvDict "error" with
          | .error e => .error e
          | .ok true => respond
          | .ok false =>
            .error (raiseExc parseErrorCls
              ("Could parse a request or a response: " ++
               truncateForMsg recvStr))

/-- The ids handed out by `n` successive `request()` calls on a peer
(with `None` params, which always validate), together with the final
peer state. -/
def requestSeq (m : String) : Nat → JsonRpcPeer → List Nat × JsonRpcPeer
  | 0, st => ([], st)
  | n + 1, st =>
    let step := st.request m none
    let rest := requestSeq m n step.2
    ((match step.1 with
      | .ok (r, _) => [r]
      | .error _ => []) ++ rest.1, rest.2)

/-! ### Helper lemmas -/

/-- The values `validate_json_rpc_id` accepts: exact types int, str, or
float with zero fractional part. -/
def validIdVal : JVal → Bool
  | .int _ => true
  | .str _ => true
  | .float q => floatIsInteger q
  | _ => false

theorem validate_ok_iff (v : JVal) (cls : RClass) :
    validate_json_rpc_id v cls = .ok () ↔ validIdVal v = true := by
  cases v <;> simp [validate_json_rpc_id, validIdVal] <;>
    by_cases h : floatIsInteger _ <;> simp_all

theorem validate_error_shape (v : JVal) (cls : RClass) (e : PyExc) :
    validate_json_rpc_id v cls = .error e →
    ∃ msg, e = .jsonRpc cls.kind ⟨cls.errorCode, msg, none⟩ := by
  cases v <;> simp [validate_json_rpc_id, raiseExc, mkReservedExc, msgOr] <;>
    intro h <;> first
      | (exact ⟨_, h.symm⟩)
      | (split at h <;> simp_all <;> exact ⟨_, h.symm⟩)

theorem isNull_iff (v : JVal) : v.isNull = true ↔ v = .null := by
  cases v <;> simp [JVal.isNull]

theorem request_mk'_ok_iff {id : ReqId} {m : JVal} {p : Option JVal}
    {j : JVal} {req : JsonRpcRequest} :
    JsonRpcRequest.mk' id m p j = .ok req ↔
    (match id with
     | .missing _ => True
     | .val v => validIdVal v = true) ∧
    m.isStr = true ∧ paramsOk p = true ∧ jsonrpcIs20 j = true ∧
    req = ⟨id, m, p, j⟩ := by
  cases id with
  | missing t =>
    simp only [JsonRpcRequest.mk']
    split_ifs with h1 h2 h3 <;> simp_all <;> exact eq_comm
  | val v =>
    cases h : validate_json_rpc_id v invalidRequestErrorCls with
    | error e =>
      have : ¬ validIdVal v = true := by
        intro hv
        rw [← validate_ok_iff v invalidRequestErrorCls] at hv
        simp [h] at hv
      simp only [JsonRpcRequest.mk', h]
      simp_all
    | ok u =>
      cases u
      have hv := (validate_ok_iff v invalidRequestErrorCls).mp h
      simp only [JsonRpcRequest.mk', h]
      split_ifs with h1 h2 h3 <;> simp_all <;> exact eq_comm

theorem response_mk'_ok_iff {id res : JVal} {err : Option JsonRpcError}
    {j : JVal} {r : JsonRpcResponse} :
    JsonRpcResponse.mk' id res err j = .ok r ↔
    (id.isNull = true ∨ validIdVal id = true) ∧
    res.isNull ≠ err.isNone ∧ r = ⟨id, res, err, j⟩ := by
  by_cases hid : id.isNull = true
  · simp only [JsonRpcResponse.mk', hid, if_pos]
    split_ifs with h <;> simp_all <;> exact eq_comm
  · cases h : validate_json_rpc_id id internalErrorCls with
    | error e =>
      have : ¬ validIdVal id = true := by
        intro hv
        rw [← validate_ok_iff id internalErrorCls] at hv
        simp [h] at hv
      simp only [JsonRpcResponse.mk', hid, if_neg, h]
      simp_all
    | ok u =>
      cases u
      have hv := (validate_ok_iff id internalErrorCls).mp h
      simp only [JsonRpcResponse.mk', hid, if_neg, h]
      split_ifs with h1 <;> simp_all <;> exact eq_comm

theorem response_mk'_error_kind {id res : JVal} {err : Option JsonRpcError}
    {j : JVal} {e : PyExc} :
    JsonRpcResponse.mk' id res err j = .error e →
    ∃ m, e = .jsonRpc .internalError m := by
  intro h
  unfold JsonRpcResponse.mk' at h
  cases h0 : (if id.isNull then Except.ok ()
              else validate_json_rpc_id id internalErrorCls) with
  | error e2 =>
    rw [h0] at h
    cases h
    by_cases hn : id.isNull = true
    · simp [hn] at h0
    · simp only [Bool.not_eq_true] at hn
      simp [hn] at h0
      obtain ⟨msg, rfl⟩ := validate_error_shape _ _ _ h0
      exact ⟨_, rfl⟩
  | ok u =>
    rw [h0] at h
    by_cases hc : res.isNull = err.isNone
    · simp only [hc, if_pos] at h
      cases h
      exact ⟨_, rfl⟩
    · simp [hc] at h

theorem lookupReg_insertReg_self (reg : Registry) (c : Int) (cls : RClass) :
    lookupReg (insertReg reg c cls) c = some cls := by
  induction reg with
  | nil => simp [insertReg, lookupReg]
  | cons hd tl ih =>
    obtain ⟨c2, v⟩ := hd
    by_cases h : c2 = c <;> simp [insertReg, lookupReg, h, ih]

/-- A `request()` call with `None` params always succeeds, returns the
current counter value, and advances the counter. -/
theorem request_simple (st : JsonRpcPeer) (m : String) :
    st.request m none =
    (.ok (st.idGen, utf8Encode (dumps (.dict
        (JsonRpcRequest.to_json_dict
          ⟨.val (.int st.idGen), .str m, none, .str "2.0"⟩)))),
     ⟨st.idGen + 1⟩) := rfl

theorem requestSeq_shift (m : String) :
    ∀ (n k : Nat), requestSeq m n ⟨k⟩ = (List.range' k n, ⟨k + n⟩) := by
  intro n
  induction n with
  | zero => intro k; simp [requestSeq, List.range']
  | succ n ih =>
    intro k
    simp [requestSeq, request_simple, List.range', ih (k + 1)]
    omega

/-! ### Claim theorems -/

/-- C1, counterexample.  The claim says the generic fallbacks of
`exc_from_error` carry the received code (and message, data) verbatim.
They do not: an unregistered reserved code -32042 yields a generic
`JsonRpcReservedError` whose code is the class default -32000 (the
reserved constructor accepts no code), and an empty received message is
falsy and is replaced by the class default; an unregistered application
code 42 yields a generic `JsonRpcApplicationError` whose code is the
class default -1 (the `code` keyword exists but `exc_from_error` does
not pass it). -/
theorem c1_fallback_counterexample :
    (excFromError defaultReservedRegistry defaultApplicationRegistry
        ⟨-32042, "boom", none⟩ =
      .jsonRpc .reservedError ⟨-32000, "boom", none⟩ ∧
      (-32000 : Int) ≠ -32042) ∧
    (excFromError defaultReservedRegistry defaultApplicationRegistry
        ⟨-32042, "", none⟩ =
      .jsonRpc .reservedError ⟨-32000, "JSON-RPC reserved error", none⟩) ∧
    (excFromError defaultReservedRegistry defaultApplicationRegistry
        ⟨42, "boom", none⟩ =
      .jsonRpc .applicationError ⟨-1, "boom", none⟩ ∧
      (-1 : Int) ≠ 42) :=
  ⟨⟨rfl, by decide⟩, rfl, rfl, by decide⟩

/-- C1, amended.  For a reserved-range code registered to no variant,
`exc_from_error` returns a generic `JsonRpcReservedError` carrying the
class-default code -32000, the received message when it is non-empty
(the class default otherwise) and the received data; for a code outside
the reserved range registered to no variant, it returns a generic
`JsonRpcApplicationError` likewise, with class-default code -1. -/
theorem c1_fallback_amended (rreg areg : Registry) (e : JsonRpcError) :
    (-32768 ≤ e.code ∧ e.code ≤ -32000 → lookupReg rreg e.code = none →
      excFromError rreg areg e =
        .jsonRpc .reservedError
          ⟨-32000, msgOr (some e.message) "JSON-RPC reserved error", e.data⟩) ∧
    (¬ (-32768 ≤ e.code ∧ e.code ≤ -32000) → lookupReg areg e.code = none →
      excFromError rreg areg e =
        .jsonRpc .applicationError
          ⟨-1, msgOr (some e.message) "JSON-RPC", e.data⟩) := by
  constructor
  · intro hr hl
    simp [excFromError, hr, reservedExcFromError, hl, mkReservedExc,
      reservedBaseCls]
  · intro hr hl
    simp [excFromError, hr, applicationExcFromError, hl, mkApplicationExc,
      applicationBaseCls]

/-- C1, witness for the amended theorem at concrete unregistered codes
on both sides of the range split. -/
theorem c1_fallback_amended_witness :
    excFromError defaultReservedRegistry defaultApplicationRegistry
        ⟨-32042, "boom", none⟩ =
      .jsonRpc .reservedError ⟨-32000, "boom", none⟩ ∧
    excFromError defaultReservedRegistry defaultApplicationRegistry
        ⟨42, "boom", none⟩ =
      .jsonRpc .applicationError ⟨-1, "boom", none⟩ := by
  constructor
  · exact (c1_fallback_amended defaultReservedRegistry
      defaultApplicationRegistry ⟨-32042, "boom", none⟩).1 (by decide) rfl
  · exact (c1_fallback_amended defaultReservedRegistry
      defaultApplicationRegistry ⟨42, "boom", none⟩).2 (by decide) rfl

set_option maxRecDepth 100000 in
/-- C2.  The three parse failure stages at the claimed inputs: invalid
bytes give ParseError "Invalid ASCII encoding"; undecodable JSON gives
ParseError "Invalid JSON format"; a JSON object with none of the keys
method, result, error gives a ParseError whose message is the source's
literal prefix — which reads "Could parse a request or a response: "
(the "not" the spec expects is missing from the source string) —
followed by the first 100 characters of the text, "..." appended when it
was truncated. -/
theorem c2_parse_stage_messages :
    JsonRpcPeer.parse [0xFF] 0 =
      .error (.jsonRpc .parseError ⟨-32700, "Invalid ASCII encoding", none⟩) ∧
    JsonRpcPeer.parse [0x7B] 0 =
      .error (.jsonRpc .parseError ⟨-32700, "Invalid JSON format", none⟩) ∧
    JsonRpcPeer.parse (utf8Encode "\x7b\"id\":0,\"jsonrpc\":\"2.0\"\x7d") 0 =
      .error (.jsonRpc .parseError
        ⟨-32700,
         "Could parse a request or a response: \x7b\"id\":0,\"jsonrpc\":\"2.0\"\x7d",
         none⟩) ∧
    JsonRpcPeer.parse
        (utf8Encode ("[\"" ++ String.mk (List.replicate 150 'a') ++ "\"]")) 0 =
      .error (.jsonRpc .parseError
        ⟨-32700,
         "Could parse a request or a response: [\"" ++
           String.mk (List.replicate 98 'a') ++ "...",
         none⟩) :=
  ⟨rfl, rfl, rfl, rfl⟩

/-- C6.  Declaring a reserved-domain class with a code outside
[-32768, -32000] raises `RuntimeError` at declaration time; a code in
range is accepted and recorded in the reserved registry under its code.
Symmetrically for application-domain classes with the ranges swapped.
The final conjunct re-runs the declarations performed by importing
`exc.py` and shows they produce the default registry, with -32602 held
by the internal-error class (declared last). -/
theorem c6_declaration_range_check (cls : RClass) (reg : Registry) :
    ((cls.errorCode < -32768 ∨ cls.errorCode > -32000) →
      declareReserved cls reg = .error (.runtimeError
        "Subclasses of JsonRpcReservedError must set ERROR_CODE in range [-32768, -32000].")) ∧
    (¬ (cls.errorCode < -32768 ∨ cls.errorCode > -32000) →
      declareReserved cls reg = .ok (insertReg reg cls.errorCode cls) ∧
      lookupReg (insertReg reg cls.errorCode cls) cls.errorCode = some cls) ∧
    ((-32768 ≤ cls.errorCode ∧ cls.errorCode ≤ -32000) →
      declareApplication cls reg = .error (.runtimeError
        "Subclasses of JsonRpcReservedError must set ERROR_CODE outside the  range [-32768, -32000].")) ∧
    (¬ (-32768 ≤ cls.errorCode ∧ cls.errorCode ≤ -32000) →
      declareApplication cls reg = .ok (insertReg reg cls.errorCode cls) ∧
      lookupReg (insertReg reg cls.errorCode cls) cls.errorCode = some cls) ∧
    declareAllReserved builtinReservedClasses [] = .ok defaultReservedRegistry := by
  refine ⟨?_, ?_, ?_, ?_, rfl⟩
  · intro h
    simp [declareReserved, h]
  · intro h
    exact ⟨by simp [declareReserved, h], lookupReg_insertReg_self _ _ _⟩
  · intro h
    simp [declareApplication, h]
  · intro h
    exact ⟨by simp [declareApplication, h], lookupReg_insertReg_self _ _ _⟩

/-- C6, witness: the two misdeclarations from the test-suite fail at
declaration time, and an in-range application declaration is recorded. -/
theorem c6_declaration_range_check_witness :
    declareReserved ⟨.custom "MyReservedError", 1, "Default message"⟩ [] =
      .error (.runtimeError
        "Subclasses of JsonRpcReservedError must set ERROR_CODE in range [-32768, -32000].") ∧
    declareApplication ⟨.custom "MyAppError", -32768, "Default message"⟩ [] =
      .error (.runtimeError
        "Subclasses of JsonRpcReservedError must set ERROR_CODE outside the  range [-32768, -32000].") ∧
    declareApplication ⟨.custom "MyAppError2", 1, "Default message"⟩ [] =
      .ok [(1, ⟨.custom "MyAppError2", 1, "Default message"⟩)] := by
  refine ⟨?_, ?_, ?_⟩
  · exact (c6_declaration_range_check
      ⟨.custom "MyReservedError", 1, "Default message"⟩ []).1 (by decide)
  · exact (c6_declaration_range_check
      ⟨.custom "MyAppError", -32768, "Default message"⟩ []).2.2.1 (by decide)
  · exact ((c6_declaration_range_check
      ⟨.custom "MyAppError2", 1, "Default message"⟩ []).2.2.2.1 (by decide)).1

/-- C4.  A response construction in which both `result` and `error` are
provided, or neither is (the Python arguments, where providing no
result means passing `None`, i.e. `JVal.null`), raises
`JsonRpcInternalError`; consequently every successfully constructed
response — whether built directly or decoded by `from_json_dict` —
carries exactly one of `result`/`error` (their presence flags always
differ).  The last two conjuncts exhibit the failure through
`from_json_dict` itself: a wire object carrying both a non-null
`result` and a decodable `error`, or carrying neither key, is
rejected with `JsonRpcInternalError`. -/
theorem c4_response_exactly_one (id res : JVal) (err : Option JsonRpcError)
    (j : JVal) :
    (res.isNull = err.isNone →
      ∃ e, JsonRpcResponse.mk' id res err j =
        .error (.jsonRpc .internalError e)) ∧
    (∀ r, JsonRpcResponse.mk' id res err j = .ok r →
      r.result.isNull ≠ r.error.isNone) ∧
    (∀ (d : List (String × JVal)) (r : JsonRpcResponse),
      JsonRpcResponse.from_json_dict d = .ok r →
      r.result.isNull ≠ r.error.isNone) ∧
    (∀ (d : List (String × JVal)) (res0 : JVal) (ed : List (String × JVal))
        (e0 : JsonRpcError) (id0 j0 : JVal),
      lookupD d "error" = some (.dict ed) →
      JsonRpcError.from_json_dict ed = .ok e0 →
      lookupD d "result" = some res0 → res0.isNull = false →
      lookupD d "id" = some id0 → lookupD d "jsonrpc" = some j0 →
      ∃ e, JsonRpcResponse.from_json_dict d =
        .error (.jsonRpc .internalError e)) ∧
    (∀ (d : List (String × JVal)) (id0 j0 : JVal),
      lookupD d "error" = none → lookupD d "result" = none →
      lookupD d "id" = some id0 → lookupD d "jsonrpc" = some j0 →
      ∃ e, JsonRpcResponse.from_json_dict d =
        .error (.jsonRpc .internalError e)) := by
  refine ⟨?_, ?_, ?_, ?_, ?_⟩
  · intro hboth
    cases hm : JsonRpcResponse.mk' id res err j with
    | ok r => exact absurd hboth (response_mk'_ok_iff.mp hm).2.1
    | error e =>
      obtain ⟨m, rfl⟩ := response_mk'_error_kind hm
      exact ⟨m, rfl⟩
  · intro r h
    obtain ⟨-, hx, rfl⟩ := response_mk'_ok_iff.mp h
    exact hx
  · intro d r h
    unfold JsonRpcResponse.from_json_dict at h
    split at h
    · exact Except.noConfusion h
    · split at h
      · exact Except.noConfusion h
      · split at h
        · exact Except.noConfusion h
        · obtain ⟨-, hx, rfl⟩ := response_mk'_ok_iff.mp h
          exact hx
  · intro d res0 ed e0 id0 j0 herr hdec hres hresnull hid hj
    unfold JsonRpcResponse.from_json_dict
    rw [herr]
    simp only [hdec, Except.map, hres, Option.getD, hid, hj]
    cases hm : JsonRpcResponse.mk' id0 res0 (some e0) j0 with
    | ok r =>
      exfalso
      have hx := (response_mk'_ok_iff.mp hm).2.1
      rw [hresnull] at hx
      exact hx rfl
    | error e =>
      obtain ⟨m, rfl⟩ := response_mk'_error_kind hm
      exact ⟨m, rfl⟩
  · intro d id0 j0 herr hres hid hj
    unfold JsonRpcResponse.from_json_dict
    rw [herr]
    simp only [hres, Option.getD, hid, hj]
    cases hm : JsonRpcResponse.mk' id0 .null none j0 with
    | ok r =>
      exfalso
      exact (response_mk'_ok_iff.mp hm).2.1 rfl
    | error e =>
      obtain ⟨m, rfl⟩ := response_mk'_error_kind hm
      exact ⟨m, rfl⟩

/-- C4, witness: both-present and neither-present constructions fail
with an internal error, and a decoded success response has exactly one
of result/error. -/
theorem c4_response_exactly_one_witness :
    (∃ e, JsonRpcResponse.mk' (.int 0) (.dict [("foo", .str "bar")])
        (some ⟨-32700, "An error occurred", none⟩) (.str "2.0") =
      .error (.jsonRpc .internalError e)) ∧
    (∃ e, JsonRpcResponse.mk' (.int 0) .null none (.str "2.0") =
      .error (.jsonRpc .internalError e)) ∧
    ((JVal.dict [("foo", .str "bar")]).isNull ≠
      (none : Option JsonRpcError).isNone) ∧
    (∃ e, JsonRpcResponse.from_json_dict
        [("id", .int 0), ("jsonrpc", .str "2.0"), ("result", .str "r"),
         ("error", .dict [("code", .int (-32700)), ("message", .str "b")])] =
      .error (.jsonRpc .internalError e)) ∧
    (∃ e, JsonRpcResponse.from_json_dict
        [("id", .int 0), ("jsonrpc", .str "2.0")] =
      .error (.jsonRpc .internalError e)) := by
  refine ⟨?_, ?_, ?_, ?_, ?_⟩
  · exact (c4_response_exactly_one (.int 0) (.dict [("foo", .str "bar")])
      (some ⟨-32700, "An error occurred", none⟩) (.str "2.0")).1 rfl
  · exact (c4_response_exactly_one (.int 0) .null none (.str "2.0")).1 rfl
  · exact (c4_response_exactly_one (.int 0) (.dict [("foo", .str "bar")])
      none (.str "2.0")).2.2.1
      [("id", .int 0), ("jsonrpc", .str "2.0"),
       ("result", .dict [("foo", .str "bar")])]
      ⟨.int 0, .dict [("foo", .str "bar")], none, .str "2.0"⟩ rfl
  · exact (c4_response_exactly_one (.int 0) (.str "r")
      (some ⟨-32700, "b", none⟩) (.str "2.0")).2.2.2.1
      [("id", .int 0), ("jsonrpc", .str "2.0"), ("result", .str "r"),
       ("error", .dict [("code", .int (-32700)), ("message", .str "b")])]
      (.str "r") [("code", .int (-32700)), ("message", .str "b")]
      ⟨-32700, "b", none⟩ (.int 0) (.str "2.0")
      rfl rfl rfl rfl rfl rfl
  · exact (c4_response_exactly_one (.int 0) .null none (.str "2.0")).2.2.2.2
      [("id", .int 0), ("jsonrpc", .str "2.0")] (.int 0) (.str "2.0")
      rfl rfl rfl rfl

/-- C5.  An id that is a float with non-zero fractional part, or a
boolean, is rejected: request construction raises
`JsonRpcInvalidRequestError` and (non-null-id) response construction
raises `JsonRpcInternalError`; integer, integral-float and string ids
are accepted.  The final conjunct records the divergence on null: the
claim (and the error message the source itself emits) count null among
the accepted ids, but `validate_json_rpc_id` rejects `None` because
`NoneType` is not in `(int, float, str)`, so a request with an explicit
null id raises `JsonRpcInvalidRequestError`. -/
theorem c5_id_validation_rules :
    (∀ (q : ℚ), q.den ≠ 1 → ∀ (m : JVal) (p : Option JVal) (j : JVal),
      JsonRpcRequest.mk' (.val (.float q)) m p j =
        .error (raiseExc invalidRequestErrorCls
          "`id` number cannot have a fractional part.")) ∧
    (∀ (b : Bool) (m : JVal) (p : Option JVal) (j : JVal),
      JsonRpcRequest.mk' (.val (.bool b)) m p j =
        .error (raiseExc invalidRequestErrorCls
          "`id` must be a number, string, or null.")) ∧
    (∀ (q : ℚ), q.den ≠ 1 → ∀ (res : JVal) (err : Option JsonRpcError) (j : JVal),
      JsonRpcResponse.mk' (.float q) res err j =
        .error (raiseExc internalErrorCls
          "`id` number cannot have a fractional part.")) ∧
    (∀ (b : Bool) (res : JVal) (err : Option JsonRpcError) (j : JVal),
      JsonRpcResponse.mk' (.bool b) res err j =
        .error (raiseExc internalErrorCls
          "`id` must be a number, string, or null.")) ∧
    (∀ (n : Int) (m : String),
      JsonRpcRequest.mk' (.val (.int n)) (.str m) none (.str "2.0") =
        .ok ⟨.val (.int n), .str m, none, .str "2.0"⟩) ∧
    (∀ (q : ℚ), q.den = 1 → ∀ (m : String),
      JsonRpcRequest.mk' (.val (.float q)) (.str m) none (.str "2.0") =
        .ok ⟨.val (.float q), .str m, none, .str "2.0"⟩) ∧
    (∀ (s m : String),
      JsonRpcRequest.mk' (.val (.str s)) (.str m) none (.str "2.0") =
        .ok ⟨.val (.str s), .str m, none, .str "2.0"⟩) ∧
    (∀ (n : Int),
      JsonRpcResponse.mk' (.int n) (.str "res") none (.str "2.0") =
        .ok ⟨.int n, .str "res", none, .str "2.0"⟩) ∧
    JsonRpcRequest.mk' (.val .null) (.str "m") none (.str "2.0") =
      .error (raiseExc invalidRequestErrorCls
        "`id` must be a number, string, or null.") := by
  refine ⟨?_, ?_, ?_, ?_, ?_, ?_, ?_, ?_, rfl⟩
  · intro q hq m p j
    have hf : floatIsInteger q = false := by simp [floatIsInteger, hq]
    simp [JsonRpcRequest.mk', validate_json_rpc_id, hf]
  · intro b m p j
    simp [JsonRpcRequest.mk', validate_json_rpc_id]
  · intro q hq res err j
    have hf : floatIsInteger q = false := by simp [floatIsInteger, hq]
    simp [JsonRpcResponse.mk', validate_json_rpc_id, JVal.isNull, hf]
  · intro b res err j
    simp [JsonRpcResponse.mk', validate_json_rpc_id, JVal.isNull]
  · intro n m
    exact request_mk'_ok_iff.mpr ⟨rfl, rfl, rfl, rfl, rfl⟩
  · intro q hq m
    have hf : validIdVal (.float q) = true := by
      simp [validIdVal, floatIsInteger, hq]
    exact request_mk'_ok_iff.mpr ⟨hf, rfl, rfl, rfl, rfl⟩
  · intro s m
    exact request_mk'_ok_iff.mpr ⟨rfl, rfl, rfl, rfl, rfl⟩
  · intro n
    exact response_mk'_ok_iff.mpr ⟨Or.inr rfl, by simp [JVal.isNull], rfl⟩

/-- C5, witness at the concrete ids from the test-suite: id 1.5 and id
True are rejected on both sides, id 1.0 and id 0 are accepted, and the
null request id from the final conjunct is rejected with the message
that itself lists null as valid. -/
theorem c5_id_validation_rules_witness :
    JsonRpcRequest.mk' (.val (.float (mkRat 3 2))) (.str "hello_world")
        none (.str "2.0") =
      .error (raiseExc invalidRequestErrorCls
        "`id` number cannot have a fractional part.") ∧
    JsonRpcRequest.mk' (.val (.bool true)) (.str "hello_world")
        none (.str "2.0") =
      .error (raiseExc invalidRequestErrorCls
        "`id` must be a number, string, or null.") ∧
    JsonRpcResponse.mk' (.float (mkRat 3 2)) (.str "result") none (.str "2.0") =
      .error (raiseExc internalErrorCls
        "`id` number cannot have a fractional part.") ∧
    JsonRpcResponse.mk' (.bool true) (.str "result") none (.str "2.0") =
      .error (raiseExc internalErrorCls
        "`id` must be a number, string, or null.") ∧
    JsonRpcRequest.mk' (.val (.float (1 : ℚ))) (.str "hello_world")
        none (.str "2.0") =
      .ok ⟨.val (.float (1 : ℚ)), .str "hello_world", none, .str "2.0"⟩ ∧
    JsonRpcRequest.mk' (.val (.int 0)) (.str "hello_world")
        none (.str "2.0") =
      .ok ⟨.val (.int 0), .str "hello_world", none, .str "2.0"⟩ := by
  refine ⟨?_, ?_, ?_, ?_, ?_, ?_⟩
  · exact (c5_id_validation_rules).1 (mkRat 3 2) (by decide)
      (.str "hello_world") none (.str "2.0")
  · exact (c5_id_validation_rules).2.1 true (.str "hello_world")
      none (.str "2.0")
  · exact (c5_id_validation_rules).2.2.1 (mkRat 3 2) (by decide)
      (.str "result") none (.str "2.0")
  · exact (c5_id_validation_rules).2.2.2.1 true (.str "result")
      none (.str "2.0")
  · exact (c5_id_validation_rules).2.2.2.2.2.1 (1 : ℚ) (by decide)
      "hello_world"
  · exact (c5_id_validation_rules).2.2.2.2.1 0 "hello_world"

/-- C8.  A response whose `result` is the JSON value null can never be
constructed: passing `result=None` (the same Python value as JSON null)
with no error raises `JsonRpcInternalError` whatever the id and
protocol version, and `from_json_dict` on the well-formed wire object
with `"result": null` raises it too. -/
theorem c8_null_result_never_constructible :
    (∀ (id j : JVal), ∃ e,
      JsonRpcResponse.mk' id .null none j =
        .error (.jsonRpc .internalError e)) ∧
    JsonRpcResponse.from_json_dict
        [("id", .int 0), ("jsonrpc", .str "2.0"), ("result", .null)] =
      .error (raiseExc internalErrorCls
        "Response must contain one of `result` or `error`.") := by
  constructor
  · intro id j
    cases hm : JsonRpcResponse.mk' id .null none j with
    | ok r =>
      exact absurd rfl (response_mk'_ok_iff.mp hm).2.1
    | error e =>
      obtain ⟨m, rfl⟩ := response_mk'_error_kind hm
      exact ⟨m, rfl⟩
  · rfl

/-- C3, counterexample.  A notification does not round-trip to a value
Python `==` accepts: `from_json_dict` allocates a fresh `MissingId()`
(modelled by tag 1, distinct from the original instance tag 0), and
`MissingId` defines no `__eq__`, so the two sentinels — hence the two
dataclass instances — compare unequal even though every other field is
identical. -/
theorem c3_notification_roundtrip_counterexample :
    JsonRpcRequest.mk' (.missing 0) (.str "hello_world") none (.str "2.0") =
      .ok ⟨.missing 0, .str "hello_world", none, .str "2.0"⟩ ∧
    JsonRpcRequest.from_json_dict
        (JsonRpcRequest.to_json_dict
          ⟨.missing 0, .str "hello_world", none, .str "2.0"⟩) 1 =
      .ok ⟨.missing 1, .str "hello_world", none, .str "2.0"⟩ ∧
    reqIdEq (.missing 1) (.missing 0) = false :=
  ⟨rfl, rfl, rfl⟩

/-- C3, amended.  `from_json_dict(to_json_dict(x))` returns `x` itself
for every validly constructed request whose id is present and for every
validly constructed response; a notification comes back with all fields
equal except that its `MissingId` sentinel is a freshly allocated
instance, which Python equality rejects. -/
theorem c3_wire_roundtrip_amended :
    (∀ (v m : JVal) (p : Option JVal) (j : JVal) (req : JsonRpcRequest)
        (tag : Nat),
      JsonRpcRequest.mk' (.val v) m p j = .ok req →
      JsonRpcRequest.from_json_dict req.to_json_dict tag = .ok req) ∧
    (∀ (t : Nat) (m : JVal) (p : Option JVal) (j : JVal)
        (req : JsonRpcRequest) (tag : Nat),
      JsonRpcRequest.mk' (.missing t) m p j = .ok req →
      JsonRpcRequest.from_json_dict req.to_json_dict tag =
        .ok ⟨.missing tag, req.method, req.params, req.jsonrpc⟩) ∧
    (∀ (id res : JVal) (err : Option JsonRpcError) (j : JVal)
        (r : JsonRpcResponse),
      JsonRpcResponse.mk' id res err j = .ok r →
      JsonRpcResponse.from_json_dict r.to_json_dict = .ok r) := by
  refine ⟨?_, ?_, ?_⟩
  · intro v m p j req tag h
    obtain ⟨hv, hm, hp, hj, rfl⟩ := request_mk'_ok_iff.mp h
    cases p with
    | none =>
      show JsonRpcRequest.mk' (.val v) m none j =
        .ok (⟨.val v, m, none, j⟩ : JsonRpcRequest)
      exact request_mk'_ok_iff.mpr ⟨hv, hm, hp, hj, rfl⟩
    | some pv =>
      show JsonRpcRequest.mk' (.val v) m (some pv) j =
        .ok (⟨.val v, m, some pv, j⟩ : JsonRpcRequest)
      exact request_mk'_ok_iff.mpr ⟨hv, hm, hp, hj, rfl⟩
  · intro t m p j req tag h
    obtain ⟨-, hm, hp, hj, rfl⟩ := request_mk'_ok_iff.mp h
    cases p with
    | none =>
      show JsonRpcRequest.mk' (.missing tag) m none j =
        .ok (⟨.missing tag, m, none, j⟩ : JsonRpcRequest)
      exact request_mk'_ok_iff.mpr ⟨trivial, hm, hp, hj, rfl⟩
    | some pv =>
      show JsonRpcRequest.mk' (.missing tag) m (some pv) j =
        .ok (⟨.missing tag, m, some pv, j⟩ : JsonRpcRequest)
      exact request_mk'_ok_iff.mpr ⟨trivial, hm, hp, hj, rfl⟩
  · intro id res err j r h
    obtain ⟨hid, hx, rfl⟩ := response_mk'_ok_iff.mp h
    cases err with
    | none =>
      show JsonRpcResponse.mk' id res none j =
        .ok (⟨id, res, none, j⟩ : JsonRpcResponse)
      exact response_mk'_ok_iff.mpr ⟨hid, hx, rfl⟩
    | some e =>
      have hres : res = .null := by
        cases res <;> simp_all [JVal.isNull, Option.isNone]
      subst hres
      obtain ⟨c, msg, dt⟩ := e
      cases dt with
      | none =>
        show JsonRpcResponse.mk' id .null (some ⟨c, msg, none⟩) j =
          .ok (⟨id, .null, some ⟨c, msg, none⟩, j⟩ : JsonRpcResponse)
        exact response_mk'_ok_iff.mpr ⟨hid, by simp [JVal.isNull], rfl⟩
      | some dv =>
        show JsonRpcResponse.mk' id .null (some ⟨c, msg, some dv⟩) j =
          .ok (⟨id, .null, some ⟨c, msg, some dv⟩, j⟩ : JsonRpcResponse)
        exact response_mk'_ok_iff.mpr ⟨hid, by simp [JVal.isNull], rfl⟩

/-- C3, witness for the amended theorem: a request with params, an
error response carrying data, and a notification whose sentinel tag
changes from 3 to the fresh 7. -/
theorem c3_wire_roundtrip_amended_witness :
    JsonRpcRequest.from_json_dict
        (JsonRpcRequest.to_json_dict
          ⟨.val (.int 0), .str "hello_world",
           some (.dict [("foo", .str "bar")]), .str "2.0"⟩) 5 =
      .ok ⟨.val (.int 0), .str "hello_world",
           some (.dict [("foo", .str "bar")]), .str "2.0"⟩ ∧
    JsonRpcResponse.from_json_dict
        (JsonRpcResponse.to_json_dict
          ⟨.int 0, .null, some ⟨-32700, "An error occurred", none⟩,
           .str "2.0"⟩) =
      .ok ⟨.int 0, .null, some ⟨-32700, "An error occurred", none⟩,
           .str "2.0"⟩ ∧
    JsonRpcRequest.from_json_dict
        (JsonRpcRequest.to_json_dict ⟨.missing 3, .str "n", none, .str "2.0"⟩)
        7 =
      .ok ⟨.missing 7, .str "n", none, .str "2.0"⟩ := by
  refine ⟨?_, ?_, ?_⟩
  · exact c3_wire_roundtrip_amended.1 (.int 0) (.str "hello_world")
      (some (.dict [("foo", .str "bar")])) (.str "2.0") _ 5 rfl
  · exact c3_wire_roundtrip_amended.2.2 (.int 0) .null
      (some ⟨-32700, "An error occurred", none⟩) (.str "2.0") _ rfl
  · exact c3_wire_roundtrip_amended.2.1 3 (.str "n") none (.str "2.0") _ 7 rfl

/-- C7.  `request()` hands out `st.idGen` and advances the counter by
one (also when validation raises, mirroring that `next()` runs first),
and `n` successive calls on a fresh peer return exactly `0, 1, ..., n-1`
— a monotonically increasing, never-reused sequence starting at 0, so
the first two calls return 0 and 1. -/
theorem c7_request_id_sequence :
    (∀ (st : JsonRpcPeer) (m : String) (p : Option JVal),
      ((st.request m p).2).idGen = st.idGen + 1 ∧
      ∀ r b, (st.request m p).1 = .ok (r, b) → r = st.idGen) ∧
    (∀ (m : String) (n : Nat),
      requestSeq m n JsonRpcPeer.new = (List.range n, ⟨n⟩)) := by
  constructor
  · intro st m p
    constructor
    · cases h : JsonRpcRequest.mk' (.val (.int st.idGen)) (.str m) p
          (.str "2.0") <;>
        simp [JsonRpcPeer.request, h]
    · intro r b h
      simp only [JsonRpcPeer.request] at h
      cases hm : JsonRpcRequest.mk' (.val (.int st.idGen)) (.str m) p
          (.str "2.0") with
      | error e =>
        rw [hm] at h
        exact Except.noConfusion h
      | ok req =>
        rw [hm] at h
        simp at h
        exact h.1.symm
  · intro m n
    simpa [List.range_eq_range', JsonRpcPeer.new] using requestSeq_shift m n 0

/-- C7, witness: the first call on a fresh peer returns id 0, and two
successive calls return the ids 0 then 1. -/
theorem c7_request_id_sequence_witness :
    (0 : Nat) = JsonRpcPeer.new.idGen ∧
    (requestSeq "hello_world" 2 JsonRpcPeer.new).1 = [0, 1] := by
  constructor
  · exact (c7_request_id_sequence.1 JsonRpcPeer.new "hello_world" none).2
      0 _ rfl
  · rw [c7_request_id_sequence.2 "hello_world" 2]
    rfl

/-- C9.  When the received bytes decode and parse to a JSON number,
boolean or null, `parse` raises `TypeError` from the `in`-membership
classification step (never a `JsonRpcException`); conversely, under a
successful decode and JSON parse, a ParseError can only arise for
values supporting membership tests — objects, arrays and strings. -/
theorem c9_parse_classification_typeerror :
    ∀ (bs : List Nat) (s : String) (v : JVal) (tag : Nat),
      utf8Decode bs = some s → jsonLoads s = some v →
      (((match v with
         | .int _ => true
         | .float _ => true
         | .bool _ => true
         | .null => true
         | _ => false) = true) →
        ∃ m, JsonRpcPeer.parse bs tag = .error (.typeError m)) ∧
      (∀ e, JsonRpcPeer.parse bs tag = .error (.jsonRpc .parseError e) →
        v.isDictOrList = true ∨ v.isStr = true) := by
  intro bs s v tag hdec hload
  unfold JsonRpcPeer.parse
  simp only [hdec, hload]
  cases v with
  | null =>
    exact ⟨fun _ => ⟨_, rfl⟩,
      fun e h => absurd (Except.error.inj h) (fun hh => PyExc.noConfusion hh)⟩
  | bool b =>
    exact ⟨fun _ => ⟨_, rfl⟩,
      fun e h => absurd (Except.error.inj h) (fun hh => PyExc.noConfusion hh)⟩
  | int n =>
    exact ⟨fun _ => ⟨_, rfl⟩,
      fun e h => absurd (Except.error.inj h) (fun hh => PyExc.noConfusion hh)⟩
  | float q =>
    exact ⟨fun _ => ⟨_, rfl⟩,
      fun e h => absurd (Except.error.inj h) (fun hh => PyExc.noConfusion hh)⟩
  | str s2 => exact ⟨fun hfalse => Bool.noConfusion hfalse, fun e h => Or.inr rfl⟩
  | list xs => exact ⟨fun hfalse => Bool.noConfusion hfalse, fun e h => Or.inl rfl⟩
  | dict kvs => exact ⟨fun hfalse => Bool.noConfusion hfalse, fun e h => Or.inl rfl⟩

/-- C9, witness at the claimed inputs b"5", b"true", b"null". -/
theorem c9_parse_classification_typeerror_witness :
    (∃ m, JsonRpcPeer.parse [0x35] 0 = .error (.typeError m)) ∧
    (∃ m, JsonRpcPeer.parse (utf8Encode "true") 0 = .error (.typeError m)) ∧
    (∃ m, JsonRpcPeer.parse (utf8Encode "null") 0 = .error (.typeError m)) := by
  refine ⟨?_, ?_, ?_⟩
  · exact (c9_parse_classification_typeerror [0x35] "5" (.int 5) 0
      rfl rfl).1 rfl
  · exact (c9_parse_classification_typeerror (utf8Encode "true") "true"
      (.bool true) 0 rfl rfl).1 rfl
  · exact (c9_parse_classification_typeerror (utf8Encode "null") "null"
      .null 0 rfl rfl).1 rfl

/-- C10.  `notify` leaves the peer state — hence the id counter —
untouched (also when validation raises), produces exactly the
serialization of a request dict with no `id` key, and the next
`request()` call behaves as if the notify had not happened. -/
theorem c10_notify_preserves_counter :
    (∀ (st : JsonRpcPeer) (m : String) (p : Option JVal) (tag : Nat),
      (st.notify m p tag).2 = st) ∧
    (∀ (st : JsonRpcPeer) (m : String) (p : Option JVal) (tag : Nat)
        (req : JsonRpcRequest),
      JsonRpcRequest.mk' (.missing tag) (.str m) p (.str "2.0") = .ok req →
      (st.notify m p tag).1 =
        .ok (utf8Encode (dumps (.dict req.to_json_dict))) ∧
      lookupD req.to_json_dict "id" = none) ∧
    (∀ (st : JsonRpcPeer) (m m2 : String) (p p2 : Option JVal) (tag : Nat),
      ((st.notify m p tag).2).request m2 p2 = st.request m2 p2) := by
  have hstate : ∀ (st : JsonRpcPeer) (m : String) (p : Option JVal)
      (tag : Nat), (st.notify m p tag).2 = st := by
    intro st m p tag
    cases h : JsonRpcRequest.mk' (.missing tag) (.str m) p (.str "2.0") <;>
      simp [JsonRpcPeer.notify, h]
  refine ⟨hstate, ?_, fun st m m2 p p2 tag => by rw [hstate]⟩
  intro st m p tag req h
  obtain ⟨-, hm, hp, hj, rfl⟩ := request_mk'_ok_iff.mp h
  have h' : JsonRpcRequest.mk' (.missing tag) (.str m) p (.str "2.0") =
      .ok ⟨.missing tag, .str m, p, .str "2.0"⟩ :=
    request_mk'_ok_iff.mpr ⟨trivial, hm, hp, hj, rfl⟩
  constructor
  · simp [JsonRpcPeer.notify, h']
  · cases p <;> rfl

/-- C10, witness: a concrete notify emits the id-free dict, and the
counter of a peer mid-sequence is unchanged. -/
theorem c10_notify_preserves_counter_witness :
    (JsonRpcPeer.notify ⟨41⟩ "hello_world"
        (some (.dict [("foo", .str "bar")])) 0).1 =
      .ok (utf8Encode (dumps (.dict
        [("method", .str "hello_world"), ("jsonrpc", .str "2.0"),
         ("params", .dict [("foo", .str "bar")])]))) ∧
    lookupD
        [("method", .str "hello_world"), ("jsonrpc", .str "2.0"),
         ("params", .dict [("foo", .str "bar")])] "id" = none ∧
    (JsonRpcPeer.notify ⟨41⟩ "hello_world"
        (some (.dict [("foo", .str "bar")])) 0).2 = ⟨41⟩ := by
  have h := (c10_notify_preserves_counter.2.1 ⟨41⟩ "hello_world"
    (some (.dict [("foo", .str "bar")])) 0
    ⟨.missing 0, .str "hello_world", some (.dict [("foo", .str "bar")]),
     .str "2.0"⟩ rfl)
  exact ⟨h.1, h.2,
    c10_notify_preserves_counter.1 ⟨41⟩ "hello_world"
      (some (.dict [("foo", .str "bar")])) 0⟩

end SansioJsonRpc
